import Mathlib

/-!
Verification of the trade execution engine of `trading_manager.py`
(class `TradingManager`).

Modelling conventions, applied uniformly:

* Base-unit token amounts are `ℕ`; signed intermediate results of the
  slippage arithmetic are `ℤ`; human-denominated amounts and slippage
  percentages (Python floats in the source) are modelled as exact
  rationals `ℚ`, and Python's `int(...)` conversion as truncation toward
  zero (`pyInt` below).  This is the standard exact-arithmetic reading of
  the source's float expressions.
* Every RPC interaction (quoting call, gas-estimation simulation, raw
  transaction submission, allowance read, transaction-count read, gas
  price read) is an explicit oracle parameter, so each code path is a
  pure function of its oracles.  Submission oracles are indexed by a call
  counter so that distinct attempts may observe different chain states.
* Each function mirrors one Python function of the source and keeps its
  name; traces of submitted transactions are returned alongside results
  so that frame properties ("submits zero transactions") are statable.
-/

namespace TgFets

/-- Python `int(q)` on a rational value: truncation toward zero. -/
def pyInt (q : ℚ) : ℤ := if q < 0 then ⌈q⌉ else ⌊q⌋

/-! ## Slippage Guard (`buy_tokens` lines 388-395, `sell_tokens` lines 760-773) -/

/-- Slippage-guard minimum output, from `buy_tokens`:
`min_tokens = int(token_amount_wei * (1 - slippage / 100))`, and if the
result is `<= 0` it is replaced by `int(token_amount_wei * 0.95)`.
`slippagePct` is the `slippage` parameter, a percentage. -/
def min_tokens (out : ℕ) (slippagePct : ℚ) : ℤ :=
  let m := pyInt ((out : ℚ) * (1 - slippagePct / 100))
  if m ≤ 0 then pyInt ((out : ℚ) * (95 / 100)) else m

/-- Slippage-guard minimum output with the tolerance given in basis
points (`bps` bps = `bps / 100` percent), as the specification
quantifies it. -/
def slipMinBps (out bps : ℕ) : ℤ := min_tokens out ((bps : ℚ) / 100)

/-- Sell-path minimum native output (`sell_tokens` lines 760-773): the
same computation as `min_tokens` on the sell estimate, but `0` when the
sell estimate could not be obtained. -/
def min_native (quote : Option ℕ) (slippagePct : ℚ) : ℤ :=
  match quote with
  | some out => min_tokens out slippagePct
  | none => 0

/-- Modelled from the specification's own formula (section 4.2):
`minOutput = outputAmountBaseUnits * (10000 - toleranceBps) / 10000` in
integer (floor-division) arithmetic, clamped to
`outputAmountBaseUnits * 95 / 100` when the result is `<= 0`.  Stated
separately so that the code's computation can be proved to refine it. -/
def minOutputSpec (out bps : ℕ) : ℤ :=
  let m : ℤ := ((out : ℤ) * (10000 - (bps : ℤ))) / 10000
  if m ≤ 0 then ((out : ℤ) * 95) / 100 else m

/-! ## Gas Estimation Cascade (`buy_tokens` lines 455-533, `sell_tokens` lines 799-881) -/

/-- Relaxed bound used by the State-1 gas-estimation retry:
`int(min_tokens * 0.70)`. -/
def relax70 (m : ℤ) : ℤ := pyInt ((m : ℚ) * (70 / 100))

/-- Relaxed bound used by the State-2 gas-estimation retry:
`int(min_tokens * 0.50)` (applied to the original minimum). -/
def relax50 (m : ℤ) : ℤ := pyInt ((m : ℚ) * (50 / 100))

/-- Buffered bound used by the send-time resubmission after a
pool-invariant (`UniswapV2: K`) rejection: `int(min_tokens * 0.80)`. -/
def relax80 (m : ℤ) : ℤ := pyInt ((m : ℚ) * (80 / 100))

/-- Buffered bound used by the send-time resubmission after an
`INSUFFICIENT_OUTPUT_AMOUNT` rejection: `int(min_tokens * 0.85)`. -/
def relax85 (m : ℤ) : ℤ := pyInt ((m : ℚ) * (85 / 100))

/-- Outcome of one gas-estimation simulation (`estimate_gas`), as
classified by the source's string matching on the raised error:
`Panic error 0x11`, `INSUFFICIENT_OUTPUT_AMOUNT`, `UNISWAPV2: K`, or an
unrecognized failure. -/
inductive SimOutcome where
  | ok (gas : ℕ)
  | panicArith
  | insufficientOut
  | uniswapK
  | otherRevert
deriving DecidableEq

/-- Result of the gas-estimation cascade. -/
inductive GasResult where
  | est (gas : ℕ)
  | invalidAmounts
  | insufficientOutput
  | liquidityTooShallow
deriving DecidableEq

/-- Gas Estimation Cascade, from the `except` chain around
`estimate_gas` (identical in `buy_tokens` and `sell_tokens`).  `sim` is
the simulation oracle keyed by the minimum-output bound of the call
being simulated; `m0` is the Slippage-Guard minimum.  The second
component is the list of minimum-output bounds simulated, in order.
Note that when a State-1 or State-2 retry succeeds, control falls
through to the trailing `gas_estimate = 300000` line of the source, so
the successful retry's estimate is overwritten by the 300000 default;
the model reproduces this faithfully. -/
def gasCascade (sim : ℤ → SimOutcome) (m0 : ℤ) : GasResult × List ℤ :=
  match sim m0 with
  | .ok g => (.est g, [m0])
  | .panicArith => (.invalidAmounts, [m0])
  | .insufficientOut => (.insufficientOutput, [m0])
  | .otherRevert => (.est 300000, [m0])
  | .uniswapK =>
    match sim (relax70 m0) with
    | .ok _ => (.est 300000, [m0, relax70 m0])
    | _ =>
      match sim (relax50 m0) with
      | .ok _ => (.est 300000, [m0, relax70 m0, relax50 m0])
      | _ => (.liquidityTooShallow, [m0, relax70 m0, relax50 m0])

/-! ## Transaction Submitter -/

/-- Error classes distinguished by the source's string matching on the
exception raised by `send_raw_transaction`. -/
inductive ErrKind where
  | nonceTooLow
  | uniswapK
  | insufficientOut
  | nonceConflict
  | other
deriving DecidableEq

/-- Result of one raw-transaction submission. -/
inductive SendRes where
  | ok (h : ℕ)
  | err (k : ErrKind)
deriving DecidableEq

/-- The observable content of a signed swap transaction: its nonce and
the minimum-output bound baked into the swap call. -/
structure Tx where
  nonce : ℕ
  minOut : ℤ
deriving DecidableEq

/-- Recursion core of `_send_transaction_with_retry` (lines 1258-1290),
parametrised by the remaining attempts (`max_retries = 3` initially).
`send` is the submission oracle, keyed by a global call counter `i` and
by the signed transaction being sent; the same `tx` is re-sent on every
attempt, exactly as the source re-sends the one `signed_txn` it was
given.  On `nonce too low` at the last attempt it raises the
nonce-conflict error; any other error is re-raised immediately.  The
second component is the list of transactions sent, in order. -/
def send_retry_core (send : ℕ → Tx → SendRes) (tx : Tx) :
    ℕ → ℕ → Except ErrKind ℕ × List Tx
  | _, 0 => (.error .nonceConflict, [])
  | i, fuel + 1 =>
    match send i tx with
    | .ok h => (.ok h, [tx])
    | .err .nonceTooLow =>
      if fuel = 0 then (.error .nonceConflict, [tx])
      else
        let r := send_retry_core send tx (i + 1) fuel
        (r.1, tx :: r.2)
    | .err k => (.error k, [tx])

/-- `_send_transaction_with_retry(web3, signed_txn, max_retries=3)`:
up to three sequential submissions of the same signed transaction. -/
def send_transaction_with_retry (send : ℕ → Tx → SendRes) (tx : Tx) (i : ℕ) :
    Except ErrKind ℕ × List Tx :=
  send_retry_core send tx i 3

/-- Terminal outcome of the submission phase of a trade. -/
inductive SubmitOut where
  | success (h : ℕ)
  | failSend (k : ErrKind)
  | failRetry (k : ErrKind)
deriving DecidableEq

/-- Buffer applied to the minimum output when resubmitting after a
send-time rejection: `0.80` for `UniswapV2: K`, `0.85` for
`INSUFFICIENT_OUTPUT_AMOUNT`. -/
def bufFactor (k : ErrKind) (m : ℤ) : ℤ :=
  if k = .uniswapK then relax80 m else relax85 m

/-- Submission phase of `buy_tokens` (lines 583-627): a single
`send_raw_transaction`; on a `UniswapV2: K` or
`INSUFFICIENT_OUTPUT_AMOUNT` rejection the swap is rebuilt with the
buffered minimum output (same nonce) and resubmitted exactly once;
a failure of the resubmission is terminal, and any other first-send
error is terminal immediately. -/
def buy_send_phase (send : ℕ → Tx → SendRes) (tx : Tx) : SubmitOut × List Tx :=
  match send 0 tx with
  | .ok h => (.success h, [tx])
  | .err k =>
    if k = .uniswapK ∨ k = .insufficientOut then
      let tx2 : Tx := { tx with minOut := bufFactor k tx.minOut }
      match send 1 tx2 with
      | .ok h => (.success h, [tx, tx2])
      | .err _ => (.failRetry k, [tx, tx2])
    else (.failSend k, [tx])

/-- Submission phase of `sell_tokens` (lines 931-978): the initial
submission goes through `_send_transaction_with_retry`; on a
`UniswapV2: K` or `INSUFFICIENT_OUTPUT_AMOUNT` rejection the swap is
rebuilt with the buffered minimum output (same nonce) and resubmitted
exactly once, again through `_send_transaction_with_retry`; a failure
of the resubmission is terminal. -/
def sell_send_phase (send : ℕ → Tx → SendRes) (tx : Tx) : SubmitOut × List Tx :=
  let r1 := send_transaction_with_retry send tx 0
  match r1.1 with
  | .ok h => (.success h, r1.2)
  | .error k =>
    if k = .uniswapK ∨ k = .insufficientOut then
      let tx2 : Tx := { tx with minOut := bufFactor k tx.minOut }
      let r2 := send_transaction_with_retry send tx2 r1.2.length
      match r2.1 with
      | .ok h => (.success h, r1.2 ++ r2.2)
      | .error _ => (.failRetry k, r1.2 ++ r2.2)
    else (.failSend k, r1.2)

/-! ## Nonce and gas-price resolution -/

/-- Nonce resolution of the trade paths (`buy_tokens` lines 546-557,
`sell_tokens` lines 894-905): the pending-inclusive transaction count;
on failure the confirmed count; on failure of both, `0`. -/
def resolve_nonce_trade (pending confirmed : Option ℕ) : ℕ :=
  match pending with
  | some n => n
  | none =>
    match confirmed with
    | some n => n
    | none => 0

/-- Nonce resolution of the Approval Gate
(`_ensure_token_approval_for_contract` lines 1192-1203): the
pending-inclusive transaction count; on failure the confirmed count; on
failure of both, `0`. -/
def resolve_nonce_approval (pending confirmed : Option ℕ) : ℕ :=
  match pending with
  | some n => n
  | none =>
    match confirmed with
    | some n => n
    | none => 0

/-- Gas price used by the trade paths (`buy_tokens` lines 535-544):
`int(current_gas_price * 1.5)`, with a chain-dependent default
(20 gwei on ETH, 10 gwei otherwise) when the read fails. -/
def trade_gas_price (suggested : Option ℕ) (isEth : Bool) : ℤ :=
  match suggested with
  | some p => pyInt ((p : ℚ) * (3 / 2))
  | none => if isEth then 20000000000 else 10000000000

/-- Gas price used by the Approval Gate
(`_ensure_token_approval_for_contract` lines 1185-1190): the chain's
suggested price unmodified, with a 5 gwei default when the read
fails. -/
def approval_gas_price (suggested : Option ℕ) : ℤ :=
  match suggested with
  | some p => (p : ℤ)
  | none => 5000000000

/-! ## Quote Engine (`get_token_price_estimate` lines 161-263, `get_token_sell_estimate` lines 294-341) -/

/-- Result of the router's read-only `getAmountsOut` call: either a
revert or the returned list of amounts. -/
inductive QuoteCall where
  | revert
  | amounts (l : List ℕ)
deriving DecidableEq

/-- Buy-side quote, from `get_token_price_estimate`: `None` when the
quoting call reverts or returns fewer than 2 elements, otherwise the
second element (`amounts_out[1]`). -/
def get_token_price_estimate (r : QuoteCall) : Option ℕ :=
  match r with
  | .revert => none
  | .amounts (_ :: b :: _) => some b
  | .amounts _ => none

/-- Sell-side quote, from `get_token_sell_estimate`: `None` when the
quoting call reverts or returns fewer than 2 elements, otherwise the
last element (`amounts_out[-1]`). -/
def get_token_sell_estimate (r : QuoteCall) : Option ℕ :=
  match r with
  | .revert => none
  | .amounts (a :: b :: rest) => some ((a :: b :: rest).getLastD 0)
  | .amounts _ => none

/-! ## Approval Gate (`_ensure_token_approval_for_contract` lines 1143-1232) -/

/-- Outcome of the Approval Gate. -/
inductive ApprovalOut where
  | alreadyApproved
  | approved (h : ℕ)
  | failed
deriving DecidableEq

/-- Oracles consumed by the Approval Gate: the current allowance read
for (owner, spender), the transaction-count reads, and the submission
result for the approve transaction. -/
structure ApprovalEnv where
  allowance : ℕ
  nonceP : Option ℕ
  nonceC : Option ℕ
  sendApprove : ℕ → SendRes

/-- `_ensure_token_approval_for_contract`: if the current allowance
already covers the required amount it returns success without building
or sending anything; otherwise it resolves a nonce, builds, signs and
submits one approve transaction (no retry).  The second component lists
the nonces of the approve transactions submitted. -/
def ensure_token_approval_for_contract (E : ApprovalEnv) (amount : ℕ) :
    ApprovalOut × List ℕ :=
  if E.allowance ≥ amount then (.alreadyApproved, [])
  else
    let nonce := resolve_nonce_approval E.nonceP E.nonceC
    match E.sendApprove nonce with
    | .ok h => (.approved h, [nonce])
    | .err _ => (.failed, [nonce])

/-! ## Trade pipelines -/

/-- Terminal error classes of a trade, mirroring the error returns of
`buy_tokens` and `sell_tokens`. -/
inductive TradeErr where
  | invalidAmount
  | quoteFailed
  | invalidAmounts
  | insufficientOutput
  | liquidityTooShallow (suggested : ℚ)
  | insufficientBalance
  | approvalFailed
  | sendFailed (k : ErrKind)
  | retryFailed (k : ErrKind)
deriving DecidableEq

/-- Terminal result of a trade. -/
inductive TradeOut where
  | ok (h : ℕ)
  | fail (e : TradeErr)
deriving DecidableEq

/-- Oracles consumed by `buy_tokens`: the buy quote (`token_amount_wei`
from `get_token_price_estimate`), the gas-estimation simulator, the
submission oracle and the transaction-count reads. -/
structure BuyEnv where
  quote : Option ℕ
  sim : ℤ → SimOutcome
  send : ℕ → Tx → SendRes
  nonceP : Option ℕ
  nonceC : Option ℕ

/-- Mapping of the submission phase's outcome to the trade result. -/
def submit_to_trade : SubmitOut × List Tx → TradeOut × List Tx
  | (.success h, t) => (.ok h, t)
  | (.failSend k, t) => (.fail (.sendFailed k), t)
  | (.failRetry k, t) => (.fail (.retryFailed k), t)

/-- `buy_tokens` (lines 343-650), relative to its oracles: input
validation, quote, Slippage Guard, Gas Estimation Cascade, nonce
resolution, then the submission phase.  `amt` is the native amount
(`bnb_amount`) and `slippagePct` the slippage percentage.  The second
component is the list of swap transactions submitted. -/
def buy_tokens (E : BuyEnv) (amt : ℚ) (slippagePct : ℚ) : TradeOut × List Tx :=
  if amt ≤ 0 then (.fail .invalidAmount, [])
  else
    match E.quote with
    | none => (.fail .quoteFailed, [])
    | some out =>
      let m0 := min_tokens out slippagePct
      match (gasCascade E.sim m0).1 with
      | .invalidAmounts => (.fail .invalidAmounts, [])
      | .insufficientOutput => (.fail .insufficientOutput, [])
      | .liquidityTooShallow => (.fail (.liquidityTooShallow (amt * (1 / 10))), [])
      | .est _ =>
        let nonce := resolve_nonce_trade E.nonceP E.nonceC
        submit_to_trade (buy_send_phase E.send { nonce := nonce, minOut := m0 })

/-- Oracles consumed by `sell_tokens`: the user's token balance read,
the allowance read and approve-submission oracle, the sell quote
(`native_out_wei` from `get_token_sell_estimate`), the gas-estimation
simulator, the submission oracle and the transaction-count reads. -/
structure SellEnv where
  balance : ℚ
  allowance : ℕ
  sendApprove : ℕ → SendRes
  quote : Option ℕ
  sim : ℤ → SimOutcome
  send : ℕ → Tx → SendRes
  nonceP : Option ℕ
  nonceC : Option ℕ

/-- `sell_tokens` (lines 652-996), relative to its oracles: input
validation, balance check, Approval Gate, sell quote, Slippage Guard
(`0` when the quote failed), Gas Estimation Cascade, nonce resolution,
then the submission phase.  `amt` is the human-denominated token amount,
`tokenWei` its base-unit conversion.  The second component lists the
nonces of approve transactions submitted, the third the swap
transactions submitted. -/
def sell_tokens (E : SellEnv) (amt : ℚ) (tokenWei : ℕ) (slippagePct : ℚ) :
    TradeOut × List ℕ × List Tx :=
  if amt ≤ 0 then (.fail .invalidAmount, [], [])
  else if E.balance < amt then (.fail .insufficientBalance, [], [])
  else
    let apr := ensure_token_approval_for_contract
      ⟨E.allowance, E.nonceP, E.nonceC, E.sendApprove⟩ tokenWei
    match apr.1 with
    | .failed => (.fail .approvalFailed, apr.2, [])
    | _ =>
      let m0 := min_native E.quote slippagePct
      match (gasCascade E.sim m0).1 with
      | .invalidAmounts => (.fail .invalidAmounts, apr.2, [])
      | .insufficientOutput => (.fail .insufficientOutput, apr.2, [])
      | .liquidityTooShallow =>
        (.fail (.liquidityTooShallow (amt * (1 / 10))), apr.2, [])
      | .est _ =>
        let nonce := resolve_nonce_trade E.nonceP E.nonceC
        let s := sell_send_phase E.send { nonce := nonce, minOut := m0 }
        ((submit_to_trade s).1, apr.2, s.2)

/-! ## Helper lemmas -/

/-- Helper: on nonnegative arguments, Python truncation agrees with the
floor. -/
theorem pyInt_of_nonneg {q : ℚ} (h : 0 ≤ q) : pyInt q = ⌊q⌋ := by
  unfold pyInt
  rw [if_neg (not_lt.mpr h)]

/-- Helper: on negative arguments, Python truncation agrees with the
ceiling. -/
theorem pyInt_of_neg {q : ℚ} (h : q < 0) : pyInt q = ⌈q⌉ := by
  unfold pyInt
  rw [if_pos h]

/-- Helper: the 5%-slippage clamp in exact integer form. -/
theorem clamp95_eq (out : ℕ) :
    pyInt ((out : ℚ) * (95 / 100)) = ((out : ℤ) * 95) / 100 := by
  have h0 : (0 : ℚ) ≤ (out : ℚ) * (95 / 100) := by positivity
  rw [pyInt_of_nonneg h0]
  have : ((out : ℚ) * (95 / 100)) = (((out : ℤ) * 95 : ℤ) : ℚ) / ((100 : ℕ) : ℚ) := by
    push_cast
    ring
  rw [this, Rat.floor_intCast_div_natCast]
  norm_num

/-- Helper: the slippage product in exact integer form. -/
theorem floor_slip_eq (out bps : ℕ) :
    ⌊(out : ℚ) * (1 - ((bps : ℚ) / 100) / 100)⌋ =
      ((out : ℤ) * (10000 - (bps : ℤ))) / 10000 := by
  have : ((out : ℚ) * (1 - ((bps : ℚ) / 100) / 100)) =
      (((out : ℤ) * (10000 - (bps : ℤ)) : ℤ) : ℚ) / ((10000 : ℕ) : ℚ) := by
    push_cast
    ring
  rw [this, Rat.floor_intCast_div_natCast]
  norm_num

/-- Helper: the cascade on a successful first simulation. -/
theorem gasCascade_ok {sim : ℤ → SimOutcome} {m0 : ℤ} {g : ℕ}
    (h : sim m0 = .ok g) : gasCascade sim m0 = (.est g, [m0]) := by
  unfold gasCascade
  rw [h]

/-- Helper: the cascade when the pool-invariant signature persists at
State 0, State 1 and State 2. -/
theorem gasCascade_shallow {sim : ℤ → SimOutcome} {m0 : ℤ}
    (h0 : sim m0 = .uniswapK) (h1 : sim (relax70 m0) = .uniswapK)
    (h2 : sim (relax50 m0) = .uniswapK) :
    gasCascade sim m0 = (.liquidityTooShallow, [m0, relax70 m0, relax50 m0]) := by
  unfold gasCascade
  rw [h0, h1, h2]

/-- Helper: the Approval Gate when the allowance already covers the
required amount. -/
theorem ensure_approval_of_le (E : ApprovalEnv) (amount : ℕ)
    (h : amount ≤ E.allowance) :
    ensure_token_approval_for_contract E amount = (.alreadyApproved, []) := by
  unfold ensure_token_approval_for_contract
  rw [if_pos h]

/-! ## Claims -/

/-- Claim C1, counterexample: with a valid quote of `1` base unit of
output and a tolerance of 5000 bps (50%), the Slippage Guard computes
`int(1 * 0.5) = 0` and the clamp `int(1 * 0.95) = 0` is still zero, so
the minimum output is not positive, contradicting
`0 < minOutput(quote, tolerance)`. -/
theorem C1_counterexample :
    0 < (1 : ℕ) ∧ (5000 : ℕ) < 10000 ∧ ¬ (0 < slipMinBps 1 5000) := by
  refine ⟨one_pos, by norm_num, ?_⟩
  have : slipMinBps 1 5000 = 0 := by
    unfold slipMinBps min_tokens pyInt
    norm_num
  rw [this]
  exact lt_irrefl 0

/-- Claim C1, amended: for every valid quote with
`outputAmountBaseUnits > 0` and tolerance in `[0, 10000)` bps, the
Slippage Guard's minimum output satisfies
`0 <= minOutput <= outputAmountBaseUnits`, and it is strictly positive
whenever `outputAmountBaseUnits >= 2`; on the sell path, when the sell
quote cannot be obtained the minimum output is `0` (not positive). -/
theorem C1_amended (out bps : ℕ) (hout : 1 ≤ out) (hbps : bps < 10000) :
    0 ≤ slipMinBps out bps ∧ slipMinBps out bps ≤ (out : ℤ) ∧
      (2 ≤ out → 0 < slipMinBps out bps) ∧
      min_native none ((bps : ℚ) / 100) = 0 := by
  have hq0 : (0 : ℚ) ≤ (out : ℚ) * (1 - ((bps : ℚ) / 100) / 100) := by
    have hb : ((bps : ℚ) / 100) / 100 < 1 := by
      rw [div_div]
      rw [div_lt_one (by norm_num)]
      exact_mod_cast hbps
    have := Nat.cast_nonneg (α := ℚ) out
    nlinarith
  have hqle : (out : ℚ) * (1 - ((bps : ℚ) / 100) / 100) ≤ (out : ℚ) := by
    have hb : (0 : ℚ) ≤ ((bps : ℚ) / 100) / 100 := by positivity
    have := Nat.cast_nonneg (α := ℚ) out
    nlinarith
  have hc0 : (0 : ℚ) ≤ (out : ℚ) * (95 / 100) := by positivity
  have hcle : (out : ℚ) * (95 / 100) ≤ (out : ℚ) := by
    have := Nat.cast_nonneg (α := ℚ) out
    nlinarith
  have floor_le_out : ∀ q : ℚ, q ≤ (out : ℚ) → ⌊q⌋ ≤ (out : ℤ) := by
    intro q hle
    calc ⌊q⌋ ≤ ⌊(out : ℚ)⌋ := Int.floor_le_floor hle
    _ = (out : ℤ) := Int.floor_natCast out
  have clamp_pos : 2 ≤ out → 0 < ⌊(out : ℚ) * (95 / 100)⌋ := by
    intro h2
    have h2q : (2 : ℚ) ≤ (out : ℚ) := by exact_mod_cast h2
    have : (1 : ℚ) ≤ (out : ℚ) * (95 / 100) := by nlinarith
    have := Int.le_floor.mpr (by exact_mod_cast this : ((1 : ℤ) : ℚ) ≤ (out : ℚ) * (95 / 100))
    omega
  refine ⟨?_, ?_, ?_, rfl⟩
  · unfold slipMinBps min_tokens
    rw [pyInt_of_nonneg hq0]
    by_cases hm : ⌊(out : ℚ) * (1 - ((bps : ℚ) / 100) / 100)⌋ ≤ 0
    · rw [if_pos hm, pyInt_of_nonneg hc0]
      exact Int.le_floor.mpr (by exact_mod_cast hc0)
    · rw [if_neg hm]
      exact le_of_lt (lt_of_not_le hm)
  · unfold slipMinBps min_tokens
    rw [pyInt_of_nonneg hq0]
    by_cases hm : ⌊(out : ℚ) * (1 - ((bps : ℚ) / 100) / 100)⌋ ≤ 0
    · rw [if_pos hm, pyInt_of_nonneg hc0]
      exact floor_le_out _ hcle
    · rw [if_neg hm]
      exact floor_le_out _ hqle
  · intro h2
    unfold slipMinBps min_tokens
    rw [pyInt_of_nonneg hq0]
    by_cases hm : ⌊(out : ℚ) * (1 - ((bps : ℚ) / 100) / 100)⌋ ≤ 0
    · rw [if_pos hm, pyInt_of_nonneg hc0]
      exact clamp_pos h2
    · rw [if_neg hm]
      exact lt_of_not_le hm

/-- Claim C1, witness: the amended bounds evaluated for a quote of 3
base units at 50 bps tolerance. -/
theorem C1_witness :
    (1 ≤ 3 ∧ 50 < 10000) ∧
      (0 ≤ slipMinBps 3 50 ∧ slipMinBps 3 50 ≤ (3 : ℤ) ∧
        (2 ≤ 3 → 0 < slipMinBps 3 50) ∧
        min_native none ((50 : ℚ) / 100) = 0) :=
  ⟨⟨by norm_num, by norm_num⟩, C1_amended 3 50 (by norm_num) (by norm_num)⟩

/-- Claim C2: for every quote and tolerance (in bps), the Slippage
Guard computes exactly the specification's integer formula
`minOutput = outputAmountBaseUnits * (10000 - toleranceBps) / 10000`,
clamped to `outputAmountBaseUnits * 95 / 100` whenever that result is
`<= 0`. -/
theorem C2_minOutput_formula (out bps : ℕ) :
    slipMinBps out bps = minOutputSpec out bps := by
  unfold slipMinBps min_tokens minOutputSpec
  by_cases hq : (out : ℚ) * (1 - ((bps : ℚ) / 100) / 100) < 0
  · rw [pyInt_of_neg hq]
    have hceil : ⌈(out : ℚ) * (1 - ((bps : ℚ) / 100) / 100)⌉ ≤ 0 :=
      Int.ceil_le.mpr (by exact_mod_cast le_of_lt hq)
    rw [if_pos hceil]
    have hfloor : ((out : ℤ) * (10000 - (bps : ℤ))) / 10000 ≤ 0 := by
      rw [← floor_slip_eq]
      have : ⌊(out : ℚ) * (1 - ((bps : ℚ) / 100) / 100)⌋ < 0 := by
        by_contra hcon
        exact absurd (Int.le_floor.mp (not_lt.mp hcon)) (by simpa using hq)
      omega
    rw [if_pos hfloor]
    exact clamp95_eq out
  · rw [pyInt_of_nonneg (not_lt.mp hq)]
    rw [floor_slip_eq]
    by_cases hm : ((out : ℤ) * (10000 - (bps : ℤ))) / 10000 ≤ 0
    · rw [if_pos hm, if_pos hm]
      exact clamp95_eq out
    · rw [if_neg hm, if_neg hm]

/-- Claim C3: whenever the State-0 simulation reverts with the
pool-invariant (`UniswapV2: K`) signature, the cascade's next
simulation — before any State-2 attempt — uses exactly the State-1
bound `int(minOutput * 0.70)`; and whenever the State-0 simulation
reverts with the arithmetic-panic signature, the cascade terminates at
State 0 with `InvalidAmounts` and performs no further simulation. -/
theorem C3_cascade_states (sim : ℤ → SimOutcome) (m0 : ℤ) :
    (sim m0 = .uniswapK →
      (gasCascade sim m0).2.take 2 = [m0, relax70 m0]) ∧
    (sim m0 = .panicArith → gasCascade sim m0 = (.invalidAmounts, [m0])) := by
  constructor
  · intro h
    unfold gasCascade
    rw [h]
    cases h1 : sim (relax70 m0)
    case ok g => simp
    all_goals cases h2 : sim (relax50 m0) <;> simp
  · intro h
    unfold gasCascade
    rw [h]

/-- Input for the C3 witness: a simulator that reports the
pool-invariant revert exactly at the bound 100. -/
def c3_simK : ℤ → SimOutcome := fun m => if m = 100 then .uniswapK else .ok 1

/-- Input for the C3 witness: a simulator that always reports the
arithmetic-panic revert. -/
def c3_simP : ℤ → SimOutcome := fun _ => .panicArith

/-- Claim C3, witness: both cascade behaviors evaluated on concrete
simulators. -/
theorem C3_witness :
    (gasCascade c3_simK 100).2.take 2 = [100, relax70 100] ∧
    gasCascade c3_simP 7 = (.invalidAmounts, [7]) :=
  ⟨(C3_cascade_states c3_simK 100).1 rfl, (C3_cascade_states c3_simP 7).2 rfl⟩

/-- Claim C7: when the gas-estimation simulation reverts with the
pool-invariant signature at State 0, State 1 (70%) and State 2 (50%),
both trade paths terminate with a `LiquidityTooShallow` error whose
suggested trade size is exactly 10% of the requested amount, and no
swap transaction is submitted. -/
theorem C7_shallow_liquidity (E : BuyEnv) (SE : SellEnv) (amt amtT slip : ℚ)
    (w out osell : ℕ)
    (hamt : 0 < amt)
    (hq : E.quote = some out)
    (h0 : E.sim (min_tokens out slip) = .uniswapK)
    (h1 : E.sim (relax70 (min_tokens out slip)) = .uniswapK)
    (h2 : E.sim (relax50 (min_tokens out slip)) = .uniswapK)
    (hamtT : 0 < amtT) (hbal : ¬ SE.balance < amtT) (hallow : w ≤ SE.allowance)
    (hsq : SE.quote = some osell)
    (s0 : SE.sim (min_tokens osell slip) = .uniswapK)
    (s1 : SE.sim (relax70 (min_tokens osell slip)) = .uniswapK)
    (s2 : SE.sim (relax50 (min_tokens osell slip)) = .uniswapK) :
    buy_tokens E amt slip = (.fail (.liquidityTooShallow (amt * (1 / 10))), []) ∧
    sell_tokens SE amtT w slip =
      (.fail (.liquidityTooShallow (amtT * (1 / 10))), [], []) := by
  constructor
  · simp only [buy_tokens, if_neg (not_le.mpr hamt), hq,
      gasCascade_shallow h0 h1 h2]
  · simp only [sell_tokens, if_neg (not_le.mpr hamtT), if_neg hbal,
      ensure_approval_of_le ⟨SE.allowance, SE.nonceP, SE.nonceC, SE.sendApprove⟩ w hallow,
      hsq, min_native, gasCascade_shallow s0 s1 s2]

/-- Input for the C7 witness: a buy environment whose simulator always
reports the pool-invariant revert. -/
def c7_buyEnv : BuyEnv :=
  { quote := some 100
    sim := fun _ => .uniswapK
    send := fun _ _ => .ok 0
    nonceP := none
    nonceC := none }

/-- Input for the C7 witness: a sell environment whose simulator always
reports the pool-invariant revert. -/
def c7_sellEnv : SellEnv :=
  { balance := 5
    allowance := 10
    sendApprove := fun _ => .ok 0
    quote := some 200
    sim := fun _ => .uniswapK
    send := fun _ _ => .ok 0
    nonceP := none
    nonceC := none }

/-- Claim C7, witness: both shallow-liquidity terminations evaluated on
concrete environments. -/
theorem C7_witness :
    buy_tokens c7_buyEnv 1 5 = (.fail (.liquidityTooShallow (1 * (1 / 10))), []) ∧
    sell_tokens c7_sellEnv 2 10 5 =
      (.fail (.liquidityTooShallow (2 * (1 / 10))), [], []) :=
  C7_shallow_liquidity c7_buyEnv c7_sellEnv 1 2 5 10 100 200
    (by norm_num) rfl rfl rfl rfl (by norm_num)
    (by norm_num [c7_sellEnv]) (by norm_num [c7_sellEnv])
    rfl rfl rfl rfl

/-- Helper: the retrying submitter on a first-attempt success. -/
theorem send_retry_core_ok {send : ℕ → Tx → SendRes} {tx : Tx} {i fuel : ℕ}
    {h : ℕ} (hs : send i tx = .ok h) :
    send_retry_core send tx i (fuel + 1) = (.ok h, [tx]) := by
  unfold send_retry_core
  rw [hs]

/-- Helper: the retrying submitter re-raises a non-nonce error
immediately. -/
theorem send_retry_core_fatal {send : ℕ → Tx → SendRes} {tx : Tx} {i fuel : ℕ}
    {k : ErrKind} (hs : send i tx = .err k) (hk : k ≠ .nonceTooLow) :
    send_retry_core send tx i (fuel + 1) = (.error k, [tx]) := by
  cases k with
  | nonceTooLow => exact absurd rfl hk
  | uniswapK => unfold send_retry_core; rw [hs]
  | insufficientOut => unfold send_retry_core; rw [hs]
  | nonceConflict => unfold send_retry_core; rw [hs]
  | other => unfold send_retry_core; rw [hs]

/-- Helper: under persistent `nonce too low` errors the retrying
submitter re-sends the same transaction three times and then raises the
nonce-conflict error. -/
theorem send_retry_core_exhaust {send : ℕ → Tx → SendRes} {tx : Tx} {i : ℕ}
    (hall : ∀ j, send j tx = .err .nonceTooLow) :
    send_retry_core send tx i 3 = (.error .nonceConflict, [tx, tx, tx]) := by
  unfold send_retry_core
  rw [hall i]
  simp only [Nat.succ_ne_zero, if_false]
  unfold send_retry_core
  rw [hall (i + 1)]
  simp only [Nat.succ_ne_zero, if_false]
  unfold send_retry_core
  rw [hall (i + 2)]
  simp

/-- Claim C4, input for the counterexample: a submission oracle whose
first call fails with `nonce too low` and whose later calls succeed. -/
def c4_send : ℕ → Tx → SendRes :=
  fun i _ => if i = 0 then .err .nonceTooLow else .ok 7

/-- Claim C4, counterexample: on the buy path a `nonce too low` send
failure is terminal after a single submission — even though a second
attempt would succeed — so the 3-attempt nonce retry does not apply to
the swap submission of every trade. -/
theorem C4_counterexample :
    c4_send 1 ⟨5, 100⟩ = .ok 7 ∧
    buy_send_phase c4_send ⟨5, 100⟩ = (.failSend .nonceTooLow, [⟨5, 100⟩]) := by
  constructor
  · rfl
  · rfl

/-- Claim C4, amended: only the sell path's swap submission retries on
`nonce too low`: it re-sends the same signed transaction (same nonce,
with a short fixed delay, no nonce re-read) up to 3 times and surfaces
a nonce-conflict error on exhaustion; the buy path's swap submission
performs no nonce retry and fails terminally on the first
`nonce too low` error. -/
theorem C4_amended (send : ℕ → Tx → SendRes) (tx : Tx)
    (hall : ∀ i, send i tx = .err .nonceTooLow) :
    send_transaction_with_retry send tx 0 = (.error .nonceConflict, [tx, tx, tx]) ∧
    buy_send_phase send tx = (.failSend .nonceTooLow, [tx]) := by
  constructor
  · exact send_retry_core_exhaust hall
  · unfold buy_send_phase
    rw [hall 0]
    simp

/-- Claim C4, input for the witness: a submission oracle that always
fails with `nonce too low`. -/
def c4w_send : ℕ → Tx → SendRes := fun _ _ => .err .nonceTooLow

/-- Claim C4, witness: the amended behavior evaluated on the persistent
`nonce too low` oracle. -/
theorem C4_witness :
    send_transaction_with_retry c4w_send ⟨0, 5⟩ 0 =
      (.error .nonceConflict, [⟨0, 5⟩, ⟨0, 5⟩, ⟨0, 5⟩]) ∧
    buy_send_phase c4w_send ⟨0, 5⟩ = (.failSend .nonceTooLow, [⟨0, 5⟩]) :=
  C4_amended c4w_send ⟨0, 5⟩ (fun _ => rfl)

/-- Claim C5: on a send-time `UniswapV2: K` or
`INSUFFICIENT_OUTPUT_AMOUNT` rejection, both trade paths rebuild the
swap with the buffered minimum output (factor 0.80 for the
pool-invariant rejection, 0.85 for insufficient output) and resubmit
exactly once; a failure of that single resubmission is terminal. -/
theorem C5_buffered_resubmission (send : ℕ → Tx → SendRes) (tx tx2 : Tx)
    (k : ErrKind) (hk : k = .uniswapK ∨ k = .insufficientOut)
    (h0 : send 0 tx = .err k)
    (htx2 : tx2 = { tx with minOut := bufFactor k tx.minOut }) :
    ((∀ h, send 1 tx2 = .ok h →
        buy_send_phase send tx = (.success h, [tx, tx2])) ∧
      (∀ k2, send 1 tx2 = .err k2 →
        buy_send_phase send tx = (.failRetry k, [tx, tx2]))) ∧
    ((∀ h, send 1 tx2 = .ok h →
        sell_send_phase send tx = (.success h, [tx, tx2])) ∧
      (∀ k2, send 1 tx2 = .err k2 → k2 ≠ .nonceTooLow →
        sell_send_phase send tx = (.failRetry k, [tx, tx2]))) := by
  have hkne : k ≠ .nonceTooLow := by
    rcases hk with h | h <;> subst h <;> intro hcon <;> exact absurd hcon (by decide)
  have hor : (k = .uniswapK ∨ k = .insufficientOut) = True := by
    simp [hk]
  refine ⟨⟨?_, ?_⟩, ⟨?_, ?_⟩⟩
  · intro h hs
    unfold buy_send_phase
    rw [h0]
    simp only [hor, if_true, ← htx2, hs]
  · intro k2 hs
    unfold buy_send_phase
    rw [h0]
    simp only [hor, if_true, ← htx2, hs]
  · intro h hs
    unfold sell_send_phase send_transaction_with_retry
    rw [send_retry_core_fatal h0 hkne]
    simp only [hor, if_true, ← htx2, List.length_cons, List.length_nil,
      send_retry_core_ok hs]
    rfl
  · intro k2 hs hk2
    unfold sell_send_phase send_transaction_with_retry
    rw [send_retry_core_fatal h0 hkne]
    simp only [hor, if_true, ← htx2, List.length_cons, List.length_nil,
      send_retry_core_fatal hs hk2]
    rfl

/-- Claim C5, input for the witness: a submission oracle that rejects
the first call with the pool-invariant signature and the second call
with an unrecognized error. -/
def c5_send : ℕ → Tx → SendRes :=
  fun i _ => if i = 0 then .err .uniswapK else .err .other

/-- Claim C5, witness: on both paths the buffered resubmission happens
exactly once and its failure is terminal, evaluated on a concrete
oracle. -/
theorem C5_witness :
    buy_send_phase c5_send ⟨1, 1000⟩ =
      (.failRetry .uniswapK, [⟨1, 1000⟩, ⟨1, relax80 1000⟩]) ∧
    sell_send_phase c5_send ⟨1, 1000⟩ =
      (.failRetry .uniswapK, [⟨1, 1000⟩, ⟨1, relax80 1000⟩]) := by
  have h := C5_buffered_resubmission c5_send ⟨1, 1000⟩ ⟨1, relax80 1000⟩
    .uniswapK (Or.inl rfl) rfl rfl
  exact ⟨h.1.2 .other rfl, h.2.2 .other rfl (by decide)⟩

/-- Helper: every transaction recorded by the retrying submitter is the
one it was given. -/
theorem mem_send_retry_core {send : ℕ → Tx → SendRes} {tx : Tx} :
    ∀ (fuel i : ℕ) (t : Tx), t ∈ (send_retry_core send tx i fuel).2 → t = tx := by
  intro fuel
  induction fuel with
  | zero =>
    intro i t h
    simp [send_retry_core] at h
  | succ n ih =>
    intro i t h
    unfold send_retry_core at h
    cases hs : send i tx with
    | ok g =>
      rw [hs] at h
      simpa using h
    | err k =>
      rw [hs] at h
      cases k with
      | nonceTooLow =>
        split_ifs at h
        · simpa using h
        · simp only [List.mem_cons] at h
          rcases h with h | h
          · exact h
          · exact ih (i + 1) t h
      | uniswapK => simpa using h
      | insufficientOut => simpa using h
      | nonceConflict => simpa using h
      | other => simpa using h

/-- Helper: the resubmission buffers preserve a zero minimum output. -/
theorem bufFactor_zero (k : ErrKind) : bufFactor k 0 = 0 := by
  unfold bufFactor relax80 relax85 pyInt
  split_ifs <;> norm_num

/-- Helper: every transaction submitted by the sell submission phase
carries the minimum output it was given or a buffered version of it;
in particular a zero minimum output stays zero. -/
theorem sell_send_phase_minOut_zero (send : ℕ → Tx → SendRes) (tx : Tx)
    (h0 : tx.minOut = 0) :
    ∀ t ∈ (sell_send_phase send tx).2, t.minOut = 0 := by
  intro t ht
  simp only [sell_send_phase, send_transaction_with_retry] at ht
  cases hr : (send_retry_core send tx 0 3).1 with
  | ok h =>
    rw [hr] at ht
    simp only at ht
    rw [mem_send_retry_core 3 0 t ht]
    exact h0
  | error k =>
    rw [hr] at ht
    simp only at ht
    by_cases hk : k = .uniswapK ∨ k = .insufficientOut
    · rw [if_pos hk] at ht
      have hmem : t ∈ (send_retry_core send tx 0 3).2 ∨
          t ∈ (send_retry_core send { tx with minOut := bufFactor k tx.minOut }
            ((send_retry_core send tx 0 3).2.length) 3).2 := by
        cases hr2 : (send_retry_core send { tx with minOut := bufFactor k tx.minOut }
            ((send_retry_core send tx 0 3).2.length) 3).1 <;>
          rw [hr2] at ht <;> simpa using ht
      rcases hmem with hm | hm
      · rw [mem_send_retry_core 3 0 t hm]
        exact h0
      · rw [mem_send_retry_core 3 _ t hm]
        rw [h0]
        exact bufFactor_zero k
    · rw [if_neg hk] at ht
      rw [mem_send_retry_core 3 0 t ht]
      exact h0

/-- Helper: boolean form of the zero-minimum-output trace property. -/
theorem sell_send_phase_all_zero (send : ℕ → Tx → SendRes) (tx : Tx)
    (h0 : tx.minOut = 0) :
    ((sell_send_phase send tx).2.all fun t => t.minOut == 0) = true := by
  rw [List.all_eq_true]
  intro t ht
  simpa using sell_send_phase_minOut_zero send tx h0 t ht

/-- Helper: the submission-phase wrapper preserves the trace. -/
theorem submit_to_trade_trace (p : SubmitOut × List Tx) :
    (submit_to_trade p).2 = p.2 := by
  rcases p with ⟨o, t⟩
  cases o <;> rfl

/-- Helper: the submission-phase wrapper never reports a quote
failure. -/
theorem submit_to_trade_ne_quoteFailed (p : SubmitOut × List Tx) :
    (submit_to_trade p).1 ≠ .fail .quoteFailed := by
  rcases p with ⟨o, t⟩
  cases o <;> simp [submit_to_trade]

/-- Input for the C6 counterexample: a sell environment in which every
RPC interaction succeeds except the sell quote, which cannot be
obtained. -/
def c6_env : SellEnv :=
  { balance := 10
    allowance := 1000
    sendApprove := fun _ => .ok 1
    quote := none
    sim := fun _ => .ok 21000
    send := fun _ _ => .ok 9
    nonceP := some 4
    nonceC := none }

/-- Claim C6, counterexample: on the sell path a reverted quoting call
yields no quote, yet the trade does not abort — a swap transaction with
minimum output `0` is built, submitted, and succeeds, contradicting
"no swap is built or submitted after a failed quote". -/
theorem C6_counterexample :
    get_token_sell_estimate .revert = none ∧
    sell_tokens c6_env 1 100 (1 / 2) = (.ok 9, [], [⟨4, 0⟩]) := by
  constructor
  · rfl
  · rfl

/-- Claim C6, amended: on the buy path a failed quote (reverted quoting
call or fewer than 2 returned elements) aborts the trade immediately,
with no fallback estimate and no swap submitted; on the sell path a
failed sell quote does not abort the trade — the swap proceeds, with
every submitted swap transaction carrying minimum output `0`. -/
theorem C6_amended (E : BuyEnv) (SE : SellEnv) (amt amtT slip : ℚ) (w a : ℕ)
    (ha : 0 < amt) (hq : E.quote = none) (hsq : SE.quote = none) :
    buy_tokens E amt slip = (.fail .quoteFailed, []) ∧
    get_token_price_estimate .revert = none ∧
    get_token_price_estimate (.amounts [a]) = none ∧
    get_token_sell_estimate .revert = none ∧
    (sell_tokens SE amtT w slip).1 ≠ .fail .quoteFailed ∧
    ((sell_tokens SE amtT w slip).2.2.all fun t => t.minOut == 0) = true := by
  refine ⟨?_, rfl, rfl, rfl, ?_, ?_⟩
  · unfold buy_tokens
    rw [if_neg (not_le.mpr ha), hq]
  · simp only [sell_tokens, hsq]
    split_ifs
    · simp
    · simp
    · split
      · simp
      · split <;> simp [submit_to_trade_ne_quoteFailed]
  · simp only [sell_tokens, hsq]
    split_ifs
    · simp
    · simp
    · split
      · simp
      · split
        · simp
        · simp
        · simp
        · exact sell_send_phase_all_zero _ _ rfl

/-- Claim C6, witness: the amended statement evaluated on concrete
environments whose quotes fail. -/
theorem C6_witness :
    buy_tokens ⟨none, fun _ => .ok 1, fun _ _ => .ok 2, none, none⟩ 1 (1 / 2) =
        (.fail .quoteFailed, []) ∧
      get_token_price_estimate .revert = none ∧
      get_token_price_estimate (.amounts [3]) = none ∧
      get_token_sell_estimate .revert = none ∧
      (sell_tokens c6_env 1 100 (1 / 2)).1 ≠ .fail .quoteFailed ∧
      ((sell_tokens c6_env 1 100 (1 / 2)).2.2.all fun t => t.minOut == 0) = true :=
  C6_amended ⟨none, fun _ => .ok 1, fun _ _ => .ok 2, none, none⟩ c6_env
    1 1 (1 / 2) 100 3 (by norm_num) rfl rfl

/-- Claim C8: when the current allowance already covers the required
amount, the Approval Gate is a no-op — it submits zero transactions and
returns success. -/
theorem C8_approval_noop (E : ApprovalEnv) (amount : ℕ)
    (h : amount ≤ E.allowance) :
    ensure_token_approval_for_contract E amount = (.alreadyApproved, []) :=
  ensure_approval_of_le E amount h

/-- Input for the C8 witness: an approval environment with allowance
100. -/
def c8_env : ApprovalEnv := ⟨100, some 1, none, fun _ => .ok 0⟩

/-- Claim C8, witness: the no-op evaluated for a required amount of 40
against an allowance of 100. -/
theorem C8_witness :
    ensure_token_approval_for_contract c8_env 40 = (.alreadyApproved, []) :=
  C8_approval_noop c8_env 40 (by norm_num [c8_env])

/-- Claim C9, counterexample: for a suggested gas price of 2 gwei the
trade paths use `int(2 gwei * 1.5) = 3 gwei`, but the Approval Gate
uses the suggested price unmodified, so the approval's gas price is not
150% of the chain's suggested price. -/
theorem C9_counterexample :
    approval_gas_price (some 2000000000) = 2000000000 ∧
    trade_gas_price (some 2000000000) false = 3000000000 ∧
    (2000000000 : ℤ) ≠ 3000000000 := by
  refine ⟨rfl, ?_, by norm_num⟩
  unfold trade_gas_price pyInt
  norm_num

/-- Claim C9, amended: the Approval Gate resolves its nonce exactly as
the Transaction Submitter does (pending-inclusive count, then confirmed
count, then 0), but its gas price is the chain's suggested price
unmodified (5 gwei fallback), not the submitter's 150% boost
`int(suggested * 1.5) = 3 * suggested / 2`. -/
theorem C9_amended (p c : Option ℕ) (g : ℕ) (b : Bool) :
    resolve_nonce_approval p c = resolve_nonce_trade p c ∧
    approval_gas_price (some g) = (g : ℤ) ∧
    approval_gas_price none = 5000000000 ∧
    trade_gas_price (some g) b = ((3 * g : ℕ) : ℤ) / 2 := by
  refine ⟨rfl, rfl, rfl, ?_⟩
  unfold trade_gas_price
  show pyInt ((g : ℚ) * (3 / 2)) = ((3 * g : ℕ) : ℤ) / 2
  rw [show ((g : ℚ) * (3 / 2)) = (((3 * g : ℕ) : ℤ) : ℚ) / ((2 : ℕ) : ℚ) by
    push_cast; ring]
  rw [pyInt_of_nonneg (by positivity), Rat.floor_intCast_div_natCast]
  norm_num

/-- Helper: the first transaction submitted by the buy submission phase
is the one it was given. -/
theorem buy_send_phase_head (send : ℕ → Tx → SendRes) (tx : Tx) :
    (buy_send_phase send tx).2.head? = some tx := by
  unfold buy_send_phase
  split
  · rfl
  · split_ifs
    · dsimp only
      split <;> rfl
    · rfl

/-- Helper: the first transaction submitted by the retrying submitter
is the one it was given. -/
theorem send_retry_core_head (send : ℕ → Tx → SendRes) (tx : Tx) (i fuel : ℕ) :
    (send_retry_core send tx i (fuel + 1)).2.head? = some tx := by
  unfold send_retry_core
  cases hs : send i tx with
  | ok h => rfl
  | err k =>
    cases k with
    | nonceTooLow => split_ifs <;> rfl
    | uniswapK => rfl
    | insufficientOut => rfl
    | nonceConflict => rfl
    | other => rfl

/-- Helper: the first transaction submitted by the sell submission
phase is the one it was given. -/
theorem sell_send_phase_head (send : ℕ → Tx → SendRes) (tx : Tx) :
    (sell_send_phase send tx).2.head? = some tx := by
  have hh : (send_retry_core send tx 0 3).2.head? = some tx :=
    send_retry_core_head send tx 0 2
  simp only [sell_send_phase, send_transaction_with_retry]
  split
  · simpa using hh
  · split_ifs
    · split <;>
      · cases hl : (send_retry_core send tx 0 3).2 with
        | nil => rw [hl] at hh; simp at hh
        | cons x xs =>
          rw [hl] at hh
          simp only [List.head?_cons, Option.some_inj] at hh
          simp [hh]
    · simpa using hh

/-- Helper: when the allowance is insufficient, the Approval Gate
submits exactly one approve transaction, at the resolved nonce. -/
theorem ensure_approval_trace_of_lt (E : ApprovalEnv) (amount : ℕ)
    (h : ¬ amount ≤ E.allowance) :
    (ensure_token_approval_for_contract E amount).2 =
      [resolve_nonce_approval E.nonceP E.nonceC] := by
  simp only [ensure_token_approval_for_contract, if_neg h]
  cases hs : E.sendApprove (resolve_nonce_approval E.nonceP E.nonceC) <;> rfl

/-- Claim C10: when both the pending-inclusive and the confirmed
transaction-count reads fail, neither the trade paths nor the Approval
Gate abort — each proceeds to build, sign and submit its transaction
with nonce `0`. -/
theorem C10_nonce_zero_fallback (E : BuyEnv) (A : ApprovalEnv) (SE : SellEnv)
    (amt amtT slip : ℚ) (amount w out osell g g2 : ℕ)
    (ha : 0 < amt)
    (hp : E.nonceP = none) (hc : E.nonceC = none)
    (hq : E.quote = some out) (hsim : E.sim (min_tokens out slip) = .ok g)
    (hap : A.nonceP = none) (hac : A.nonceC = none)
    (hal : ¬ amount ≤ A.allowance)
    (hamtT : 0 < amtT) (hbal : ¬ SE.balance < amtT)
    (hsp : SE.nonceP = none) (hsc : SE.nonceC = none) (hsal : w ≤ SE.allowance)
    (hsq : SE.quote = some osell)
    (hssim : SE.sim (min_tokens osell slip) = .ok g2) :
    resolve_nonce_trade none none = 0 ∧
    (buy_tokens E amt slip).2.head? = some ⟨0, min_tokens out slip⟩ ∧
    (ensure_token_approval_for_contract A amount).2 = [0] ∧
    (sell_tokens SE amtT w slip).2.2.head? = some ⟨0, min_tokens osell slip⟩ := by
  refine ⟨rfl, ?_, ?_, ?_⟩
  · simp only [buy_tokens, if_neg (not_le.mpr ha), hq, gasCascade_ok hsim,
      hp, hc, resolve_nonce_trade, submit_to_trade_trace]
    exact buy_send_phase_head E.send _
  · rw [ensure_approval_trace_of_lt A amount hal, hap, hac]
    rfl
  · simp only [sell_tokens, if_neg (not_le.mpr hamtT), if_neg hbal, hsp, hsc,
      ensure_approval_of_le ⟨SE.allowance, none, none, SE.sendApprove⟩ w hsal,
      hsq, min_native, gasCascade_ok hssim, resolve_nonce_trade]
    exact sell_send_phase_head SE.send _

/-- Input for the C10 witness: a buy environment whose transaction-count
reads both fail. -/
def c10_buyEnv : BuyEnv :=
  { quote := some 50
    sim := fun _ => .ok 100
    send := fun _ _ => .ok 1
    nonceP := none
    nonceC := none }

/-- Input for the C10 witness: an approval environment with an
insufficient allowance whose transaction-count reads both fail. -/
def c10_apEnv : ApprovalEnv := ⟨3, none, none, fun _ => .ok 2⟩

/-- Input for the C10 witness: a sell environment whose
transaction-count reads both fail. -/
def c10_sellEnv : SellEnv :=
  { balance := 9
    allowance := 60
    sendApprove := fun _ => .ok 1
    quote := some 70
    sim := fun _ => .ok 100
    send := fun _ _ => .ok 1
    nonceP := none
    nonceC := none }

/-- Claim C10, witness: the nonce-0 fallback evaluated on concrete
environments. -/
theorem C10_witness :
    resolve_nonce_trade none none = 0 ∧
    (buy_tokens c10_buyEnv 1 5).2.head? = some ⟨0, min_tokens 50 5⟩ ∧
    (ensure_token_approval_for_contract c10_apEnv 10).2 = [0] ∧
    (sell_tokens c10_sellEnv 2 60 5).2.2.head? = some ⟨0, min_tokens 70 5⟩ :=
  C10_nonce_zero_fallback c10_buyEnv c10_apEnv c10_sellEnv 1 2 5 10 60 50 70 100 100
    (by norm_num) rfl rfl rfl rfl rfl rfl (by norm_num [c10_apEnv])
    (by norm_num) (by norm_num [c10_sellEnv]) rfl rfl
    (by norm_num [c10_sellEnv]) rfl rfl

end TgFets
